import Mathlib

/-!
Verification of the rupeedesk-server session/reward backend.

The repository is a family of near-duplicate Express + Baileys servers.
The parts relevant to the claims are embedded here as pure Lean
functions:

* the reward-ledger transaction run on each `messages.upsert` event
  (`rewardTransaction`, from the `db.runTransaction` body shared by
  `server.js` and the `addMessageListener` variant);
* the referral-commission transaction of the variant that credits a
  referrer (`part000RewardTransaction`);
* the connection registry teardown-before-create sequence
  (`initWhatsAppConnection`);
* the `connection.update` close-branch classification
  (`onConnectionClose`);
* the credential-lifecycle step function over the server operations
  that touch the per-user auth directory (`credsStep`);
* the status-poll endpoint (`checkStatus`) and the QR-artifact store
  (`onQrGenerated`);
* phone-number normalization of the pairing endpoint
  (`normalizePhoneNumber`).

Firestore documents may lack fields, so ledger fields are `Option`;
`FieldValue.increment` on a possibly-missing numeric field sets it to
`previous-or-zero + delta`, which `fieldIncrementQ` / `fieldIncrementN`
mirror. Monetary amounts are modelled as exact rationals.
-/

/-- The fixed per-message reward (`const rewardAmount = 0.63`). -/
def rewardAmount : ℚ := 63 / 100

/-- The referral commission rate (`const commissionRate = 0.10`). -/
def commissionRate : ℚ := 10 / 100

/-- The daily message cap (`if (todayCount >= 200) return`). -/
def dailyCap : Nat := 200

/-- Model of `FieldValue.increment` on a rational field: a missing field is
treated as `0` and the field is set to the incremented value. -/
def fieldIncrementQ (f : Option ℚ) (x : ℚ) : Option ℚ :=
  some (f.getD 0 + x)

/-- Model of `FieldValue.increment` on a natural-number field. -/
def fieldIncrementN (f : Option Nat) (x : Nat) : Option Nat :=
  some (f.getD 0 + x)

/-- A user's reward-ledger document in the `users` collection.  Every
field may be absent from the stored document. -/
structure LedgerEntry where
  balance : Option ℚ
  whatsappMessageCount : Option Nat
  whatsappTodayCount : Option Nat
  whatsappLastCountDate : Option String
deriving DecidableEq, Repr

/-- The body of `db.runTransaction` run for each qualifying inbound
message (`server.js` lines 370-393; identically `addMessageListener`).
`today` is `new Date().toISOString().slice(0, 10)`.  A missing user
document is left missing (`if (!userDoc.exists) return`).  Note the
source increments the *stored* `whatsappTodayCount`
(`FieldValue.increment(1)`), not the locally date-reset `todayCount`. -/
def rewardTransaction (today : String) (doc : Option LedgerEntry) :
    Option LedgerEntry :=
  match doc with
  | none => none
  | some u =>
    let lastDate := u.whatsappLastCountDate.getD ""
    let todayCount0 := u.whatsappTodayCount.getD 0
    let todayCount := if lastDate ≠ today then 0 else todayCount0
    if todayCount ≥ dailyCap then some u
    else some {
      balance := fieldIncrementQ u.balance rewardAmount,
      whatsappMessageCount := fieldIncrementN u.whatsappMessageCount 1,
      whatsappTodayCount := fieldIncrementN u.whatsappTodayCount 1,
      whatsappLastCountDate := some today }

/-- The filter data of a `messages.upsert` event: truthiness of
`msg.message`, `msg.key.fromMe`, and `msg.messageStubType`. -/
structure UpsertMsg where
  hasContent : Bool
  fromMe : Bool
  isStub : Bool
deriving DecidableEq, Repr

/-- The guard `if (!msg.message || msg.key.fromMe || msg.messageStubType) return`:
the event qualifies for a reward iff it has content, is not
self-originated, and is not a protocol stub. -/
def qualifies (m : UpsertMsg) : Bool :=
  m.hasContent && !m.fromMe && !m.isStub

/-- One `messages.upsert` event: run the reward transaction only for a
qualifying message. -/
def processUpsert (today : String) (doc : Option LedgerEntry)
    (m : UpsertMsg) : Option LedgerEntry :=
  if qualifies m then rewardTransaction today doc else doc

/-- A sequence of `messages.upsert` events processed in order on one
calendar date. -/
def processEvents (today : String) (doc : Option LedgerEntry)
    (ms : List UpsertMsg) : Option LedgerEntry :=
  ms.foldl (processUpsert today) doc

/-- A qualifying inbound message used to evaluate concrete traces. -/
def qualifyingMsg : UpsertMsg :=
  { hasContent := true, fromMe := false, isStub := false }

/-- C7: if the ledger entry's stored `whatsappLastCountDate` equals the
current date (so the date-rollover reset does not apply) and the stored
daily count is already at or past the cap of 200, the reward transaction
is a complete no-op: the document is returned unchanged — no balance
change, no count increments, no date update. -/
theorem c7_cap_noop (today : String) (u : LedgerEntry)
    (hdate : u.whatsappLastCountDate.getD "" = today)
    (hcap : dailyCap ≤ u.whatsappTodayCount.getD 0) :
    rewardTransaction today (some u) = some u := by
  unfold rewardTransaction
  simp only [hdate, ne_eq, not_true_eq_false, if_false, ite_false]
  simp [hcap]

/-- Witness for `c7_cap_noop` at a concrete capped entry. -/
theorem c7_cap_noop_witness :
    rewardTransaction "2026-10-11"
      (some { balance := some 126, whatsappMessageCount := some 400,
              whatsappTodayCount := some 200,
              whatsappLastCountDate := some "2026-10-11" }) =
    some { balance := some 126, whatsappMessageCount := some 400,
           whatsappTodayCount := some 200,
           whatsappLastCountDate := some "2026-10-11" } :=
  c7_cap_noop "2026-10-11" _ (by decide) (by decide)

/-- C10: on a ledger entry that exists but lacks `whatsappTodayCount`
or `whatsappLastCountDate`, the transaction defaults the missing count
to `0` and the missing date to `""`; since the current date string is
never empty, the first qualifying event is always credited (never
treated as capped): the balance is incremented by the reward, both
message counts are incremented, and `whatsappLastCountDate` is set to
today. -/
theorem c10_missing_fields_defaults (today : String) (u : LedgerEntry)
    (hmiss : u.whatsappTodayCount = none ∨ u.whatsappLastCountDate = none)
    (htoday : today ≠ "") :
    rewardTransaction today (some u) = some {
      balance := fieldIncrementQ u.balance rewardAmount,
      whatsappMessageCount := fieldIncrementN u.whatsappMessageCount 1,
      whatsappTodayCount := fieldIncrementN u.whatsappTodayCount 1,
      whatsappLastCountDate := some today } := by
  unfold rewardTransaction
  rcases hmiss with hc | hd
  · rcases hdate : u.whatsappLastCountDate with _ | d
    · simp [hdate, Ne.symm htoday, dailyCap]
    · rcases eq_or_ne d today with h | h
      · simp [hdate, h, hc, dailyCap]
      · simp [hdate, h, dailyCap]
  · simp [hd, Ne.symm htoday, dailyCap]

/-- Witness for `c10_missing_fields_defaults`: an entry missing both
count fields is credited on its first qualifying event. -/
theorem c10_missing_fields_defaults_witness :
    rewardTransaction "2026-10-11"
      (some { balance := some 5, whatsappMessageCount := some 7,
              whatsappTodayCount := none,
              whatsappLastCountDate := none }) =
    some { balance := some (5 + 63 / 100), whatsappMessageCount := some 8,
           whatsappTodayCount := some 1,
           whatsappLastCountDate := some "2026-10-11" } := by
  have h := c10_missing_fields_defaults "2026-10-11"
    { balance := some 5, whatsappMessageCount := some 7,
      whatsappTodayCount := none, whatsappLastCountDate := none }
    (Or.inl rfl) (by decide)
  rw [h]
  rfl

/-- C1 (code evaluation at the failing inputs): the sources persist
`FieldValue.increment(1)` on the *stored* `whatsappTodayCount` even when
the date-rollover check has reset the local copy, so the previous day's
stored count carries over.  First conjunct: an entry whose stored count
is 200 from the previous date ends one qualifying event later with
stored count 201, exceeding the cap.  Second conjunct: an entry with
stored count 198 from the previous date gets only 2 of 5 qualifying
events credited, so the balance increase is `2 × reward`, not
`min(5, 200) × reward`. -/
theorem c1_dailyCap_code_evaluation :
    ((processEvents "2026-10-11"
        (some { balance := some 0, whatsappMessageCount := some 200,
                whatsappTodayCount := some 200,
                whatsappLastCountDate := some "2026-10-10" })
        (List.replicate 1 qualifyingMsg)).bind
          (fun u => u.whatsappTodayCount) = some 201
      ∧ dailyCap < 201)
    ∧ ((processEvents "2026-10-11"
        (some { balance := some 0, whatsappMessageCount := some 198,
                whatsappTodayCount := some 198,
                whatsappLastCountDate := some "2026-10-10" })
        (List.replicate 5 qualifyingMsg)).bind
          (fun u => u.balance) = some (0 + rewardAmount + rewardAmount)
      ∧ (0 + rewardAmount + rewardAmount : ℚ) ≠ 5 * rewardAmount) :=
  ⟨⟨rfl, by decide⟩, ⟨rfl, by norm_num [rewardAmount]⟩⟩

/-- C2 (code evaluation at the failing input): processing one
qualifying event on a new calendar date over an entry whose stored
count is 150 from the previous date leaves the stored
`whatsappTodayCount` at 151, not at the 1 the rollover is supposed to
produce — the local `todayCount = 0` reset is never written back, only
`FieldValue.increment(1)` of the stale stored value.  The date itself
is set to today. -/
theorem c2_rollover_code_evaluation :
    rewardTransaction "2026-10-11"
      (some { balance := some 0, whatsappMessageCount := some 150,
              whatsappTodayCount := some 150,
              whatsappLastCountDate := some "2026-10-10" }) =
      some { balance := some (0 + rewardAmount),
             whatsappMessageCount := some 151,
             whatsappTodayCount := some 151,
             whatsappLastCountDate := some "2026-10-11" }
    ∧ (151 : Nat) ≠ 1 :=
  ⟨rfl, by decide⟩

/-! ### Session registry (part_000 `initializeWhatsAppConnection`) -/

/-- Commands issued by the registry while creating or replacing a
session; socket instances are identified by numeric ids. -/
inductive RegistryCmd
  | logoutCmd (sid : Nat)
  | removeEntry (uid : String)
  | install (uid : String) (sid : Nat)
deriving DecidableEq, Repr

/-- The teardown-before-create sequence of the variant's
`initializeWhatsAppConnection(userId)` (part_000 lines 30-51): if the
registry (`userSockets`) already holds a socket for `uid`, its
`logout()` is issued — any failure caught and ignored, which is why the
result does not depend on `logoutFails` — and the entry is deleted;
then the fresh socket is created and installed.  Returns the new
registry together with the ordered trace of commands. -/
def initWhatsAppConnection (reg : String → Option Nat) (uid : String)
    (fresh : Nat) (logoutFails : Bool) :
    (String → Option Nat) × List RegistryCmd :=
  match reg uid with
  | some old =>
    let _ := logoutFails
    let reg1 := fun id => if id = uid then none else reg id
    let reg2 := fun id => if id = uid then some fresh else reg1 id
    (reg2, [RegistryCmd.logoutCmd old, RegistryCmd.removeEntry uid,
            RegistryCmd.install uid fresh])
  | none =>
    (fun id => if id = uid then some fresh else reg id,
     [RegistryCmd.install uid fresh])

/-- C3: when a new session is created for a `uid` that already has a
live session, the old socket's `logout()` is issued and the registry
entry removed strictly before the fresh socket is installed (the
command trace is exactly logout-remove-install), the outcome is the
same whether or not the logout fails (failure tolerated), and
afterwards the registry holds exactly the fresh session for `uid` —
at most one live session per user, the registry being a map. -/
theorem c3_registry_teardown_before_install
    (reg : String → Option Nat) (uid : String) (fresh old : Nat)
    (lf : Bool) (h : reg uid = some old) :
    (initWhatsAppConnection reg uid fresh lf).1 uid = some fresh
    ∧ (initWhatsAppConnection reg uid fresh lf).2 =
        [RegistryCmd.logoutCmd old, RegistryCmd.removeEntry uid,
         RegistryCmd.install uid fresh]
    ∧ initWhatsAppConnection reg uid fresh lf =
        initWhatsAppConnection reg uid fresh (!lf) := by
  unfold initWhatsAppConnection
  rw [h]
  exact ⟨by simp, rfl, rfl⟩

/-- Witness for `c3_registry_teardown_before_install` on a one-entry
registry. -/
theorem c3_registry_witness :
    (initWhatsAppConnection
        (fun id => if id = "user1" then some 7 else none)
        "user1" 8 false).1 "user1" = some 8
    ∧ (initWhatsAppConnection
        (fun id => if id = "user1" then some 7 else none)
        "user1" 8 false).2 =
      [RegistryCmd.logoutCmd 7, RegistryCmd.removeEntry "user1",
       RegistryCmd.install "user1" 8] := by
  have h := c3_registry_teardown_before_install
    (fun id => if id = "user1" then some 7 else none) "user1" 8 7 false
    (by decide)
  exact ⟨h.1, h.2.1⟩

/-! ### Reconnection policy (`connection.update` close branch) -/

/-- The status code `DisconnectReason.loggedOut` of the protocol library. -/
def disconnectReasonLoggedOut : Nat := 401

/-- The externally observable per-user state touched by the close
branch of the `connection.update` handler in `server.js`
(lines 335-351): registry membership (`activeConnections`), existence
of the `auth_info_<userId>` directory, the Firestore `whatsAppBound`
flag, the `userConnectionStatus` string, and the delay of a scheduled
`setTimeout` retry, if any. -/
structure SessionState where
  inRegistry : Bool
  credsExist : Bool
  whatsAppBound : Bool
  status : String
  retryDelayMs : Option Nat
deriving DecidableEq, Repr

/-- The close branch: the registry entry is deleted and the status set
to `disconnected` unconditionally; on `loggedOut` the auth directory is
removed, the bound flag cleared, and no retry scheduled; on any other
status code a retry of `initializeWhatsAppConnection` is scheduled
after 10000 ms and the credentials are untouched. -/
def onConnectionClose (statusCode : Nat) (s : SessionState) :
    SessionState :=
  let s1 := { s with inRegistry := false, status := "disconnected" }
  if statusCode = disconnectReasonLoggedOut then
    { s1 with credsExist := false, whatsAppBound := false,
              retryDelayMs := none }
  else
    { s1 with retryDelayMs := some 10000 }

/-- C5: a logged-out close purges the credentials, removes the registry
entry, clears the externally-visible bound flag and schedules no
reconnection attempt; a close with any other reason schedules a retry
after the fixed 10-second delay and leaves the credential material and
the bound flag intact. -/
theorem c5_close_classification (statusCode : Nat) (s : SessionState) :
    (statusCode = disconnectReasonLoggedOut →
      onConnectionClose statusCode s =
        { inRegistry := false, credsExist := false,
          whatsAppBound := false, status := "disconnected",
          retryDelayMs := none })
    ∧ (statusCode ≠ disconnectReasonLoggedOut →
      (onConnectionClose statusCode s).credsExist = s.credsExist
      ∧ (onConnectionClose statusCode s).whatsAppBound = s.whatsAppBound
      ∧ (onConnectionClose statusCode s).retryDelayMs = some 10000
      ∧ (onConnectionClose statusCode s).inRegistry = false) := by
  constructor
  · intro h
    simp [onConnectionClose, h]
  · intro h
    simp [onConnectionClose, h]

/-- Witness for `c5_close_classification` at both a logged-out close
(code 401) and a transient close (code 428), on a connected state. -/
theorem c5_close_classification_witness :
    onConnectionClose 401
      { inRegistry := true, credsExist := true, whatsAppBound := true,
        status := "connected", retryDelayMs := none } =
      { inRegistry := false, credsExist := false, whatsAppBound := false,
        status := "disconnected", retryDelayMs := none }
    ∧ (onConnectionClose 428
        { inRegistry := true, credsExist := true, whatsAppBound := true,
          status := "connected", retryDelayMs := none }).credsExist = true
    ∧ (onConnectionClose 428
        { inRegistry := true, credsExist := true, whatsAppBound := true,
          status := "connected", retryDelayMs := none }).retryDelayMs =
        some 10000 := by
  refine ⟨?_, ?_, ?_⟩
  · exact (c5_close_classification 401 _).1 (by decide)
  · exact ((c5_close_classification 428 _).2 (by decide)).1
  · exact ((c5_close_classification 428 _).2 (by decide)).2.2.1

/-! ### Credential lifecycle across server operations -/

/-- The operations of the part_002 server that can touch the stored
credential blob of a user: the two (re)pairing endpoints, a
`creds.update` checkpoint, and a connection close with a status code. -/
inductive ServerOp
  | requestPairingOp
  | initiateQrSessionOp
  | credsUpdate (blob : Nat)
  | connectionClose (statusCode : Nat)
deriving DecidableEq, Repr

/-- Effect of each operation on the stored credential blob (modelled as
`Option Nat`, `none` = no blob on disk).  `POST /request-pairing-code`
and `POST /initiate-qr-session` both run
`if (fs.existsSync(authDir)) fs.rmSync(authDir, ...)` before creating a
fresh auth state, so they delete any existing blob; `creds.update`
writes the received blob; a close deletes the blob exactly when the
reason is `loggedOut`. -/
def credsStep (op : ServerOp) (creds : Option Nat) : Option Nat :=
  match op with
  | .requestPairingOp => none
  | .initiateQrSessionOp => none
  | .credsUpdate b => some b
  | .connectionClose code =>
      if code = disconnectReasonLoggedOut then none else creds

/-- C6 counterexample: it is not true that the credential blob is
removed only by a logged-out close — `POST /request-pairing-code`
(the `rmSync` of `auth_info_<userId>`) deletes an existing blob even
though it is not a close event at all. -/
theorem c6_creds_deleted_by_pairing_counterexample :
    ¬ (∀ (creds : Option Nat) (op : ServerOp),
        credsStep op creds = none →
        creds = none
        ∨ op = ServerOp.connectionClose disconnectReasonLoggedOut) := by
  intro h
  rcases h (some 5) ServerOp.requestPairingOp rfl with h1 | h2
  · exact Option.noConfusion h1
  · exact ServerOp.noConfusion h2

/-- C6 amended: an existing credential blob is removed only by a
logged-out close or by one of the two re-pairing operations
(`/request-pairing-code`, `/initiate-qr-session`), which wipe the auth
directory before creating a fresh session. -/
theorem c6_creds_deletion_ops (creds : Option Nat) (op : ServerOp)
    (hex : creds ≠ none) (hdel : credsStep op creds = none) :
    op = ServerOp.connectionClose disconnectReasonLoggedOut
    ∨ op = ServerOp.requestPairingOp
    ∨ op = ServerOp.initiateQrSessionOp := by
  cases op with
  | requestPairingOp => exact Or.inr (Or.inl rfl)
  | initiateQrSessionOp => exact Or.inr (Or.inr rfl)
  | credsUpdate b => exact absurd hdel (by simp [credsStep])
  | connectionClose code =>
      left
      by_cases h : code = disconnectReasonLoggedOut
      · rw [h]
      · exact absurd hdel (by simp [credsStep, h, hex])

/-- Witness for `c6_creds_deletion_ops`: a logged-out close deletes an
existing blob and the theorem classifies it. -/
theorem c6_creds_deletion_ops_witness :
    credsStep (ServerOp.connectionClose 401) (some 5) = none
    ∧ (ServerOp.connectionClose 401 =
          ServerOp.connectionClose disconnectReasonLoggedOut
        ∨ ServerOp.connectionClose 401 = ServerOp.requestPairingOp
        ∨ ServerOp.connectionClose 401 = ServerOp.initiateQrSessionOp) :=
  ⟨by decide,
   c6_creds_deletion_ops (some 5) (ServerOp.connectionClose 401)
     (by decide) (by decide)⟩

/-! ### Status polling and the QR artifact (`server.js`) -/

/-- An entry of the `userConnectionStatus` map: a status string and,
while a QR is pending, the rendered QR data-URL artifact. -/
structure StatusInfo where
  status : String
  qrCode : Option String
deriving DecidableEq, Repr

/-- The `qr` branch of the `connection.update` handler (`server.js`
lines 318-330): a freshly rendered QR artifact is stored in
`userConnectionStatus` under the user's id with status `pending_qr`. -/
def onQrGenerated (statusMap : String → Option StatusInfo)
    (uid url : String) : String → Option StatusInfo :=
  fun id => if id = uid then
    some { status := "pending_qr", qrCode := some url }
  else statusMap id

/-- Endpoint `GET /check-status/:userId` (`server.js` lines 456-460): return the
stored status object, defaulting to `not_found`, and leave the map
untouched — the returned pair is (response, map after the request). -/
def checkStatus (statusMap : String → Option StatusInfo)
    (uid : String) : StatusInfo × (String → Option StatusInfo) :=
  ((statusMap uid).getD { status := "not_found", qrCode := none },
   statusMap)

/-- C8 counterexample: after a QR artifact is generated for `u1`, the
first status check returns it — and so does a second status check run
on the map left behind by the first, instead of the `null`/absent the
claim requires: the endpoint never clears the artifact. -/
theorem c8_artifact_not_cleared_counterexample :
    (checkStatus (onQrGenerated (fun _ => none) "u1" "qr-url")
        "u1").1.qrCode = some "qr-url"
    ∧ (checkStatus
        (checkStatus (onQrGenerated (fun _ => none) "u1" "qr-url")
          "u1").2 "u1").1.qrCode = some "qr-url"
    ∧ some "qr-url" ≠ (none : Option String) := by
  refine ⟨rfl, rfl, by decide⟩

/-- C8 amended: the status check is a pure read — it leaves the status
map unchanged, so a second status check in succession returns exactly
the same response (the artifact is re-exposed, not consumed). -/
theorem c8_status_read_pure (m : String → Option StatusInfo)
    (uid : String) :
    (checkStatus m uid).2 = m
    ∧ (checkStatus (checkStatus m uid).2 uid).1 =
        (checkStatus m uid).1 :=
  ⟨rfl, rfl⟩

/-! ### Phone-number normalization (pairing endpoint, part_002) -/

/-- The normalization `phoneNumber = phoneNumber.replace(/[^0-9]/g, ''); if
(phoneNumber.length === 10) phoneNumber = '91' + phoneNumber;` — strip
every non-digit and prepend the default country prefix `91` when
exactly 10 digits remain. -/
def normalizePhoneNumber (s : String) : String :=
  let digits := String.mk (s.toList.filter Char.isDigit)
  if digits.length = 10 then "91" ++ digits else digits

/-- C9: the number handed to `requestPairingCode` is digits-only, and
whenever the digits-only form of the input has exactly 10 digits the
default country prefix `91` is prepended to it. -/
theorem c9_phone_normalization (s : String) :
    ((normalizePhoneNumber s).toList.all Char.isDigit) = true
    ∧ ((String.mk (s.toList.filter Char.isDigit)).length = 10 →
        normalizePhoneNumber s =
          "91" ++ String.mk (s.toList.filter Char.isDigit)) := by
  have hall : (s.toList.filter Char.isDigit).all Char.isDigit = true := by
    rw [List.all_eq_true]
    intro c hc
    exact (List.mem_filter.mp hc).2
  constructor
  · unfold normalizePhoneNumber
    by_cases h : (String.mk (s.toList.filter Char.isDigit)).length = 10
    · rw [if_pos h]
      show (("91" ++ String.mk (s.toList.filter Char.isDigit)).data.all
        Char.isDigit) = true
      rw [String.data_append, List.all_append]
      exact by simp [hall]
    · rw [if_neg h]
      exact hall
  · intro h
    unfold normalizePhoneNumber
    rw [if_pos h]

/-- Witness for `c9_phone_normalization` at a formatted 10-digit
number: the result is `91` followed by the ten digits. -/
theorem c9_phone_normalization_witness :
    (normalizePhoneNumber "(987) 654-3210").toList.all Char.isDigit
      = true
    ∧ normalizePhoneNumber "(987) 654-3210" =
        "91" ++ String.mk ("(987) 654-3210".toList.filter Char.isDigit) :=
  ⟨(c9_phone_normalization "(987) 654-3210").1,
   (c9_phone_normalization "(987) 654-3210").2 (by decide)⟩

/-! ### Referral commission (part_000 `messages.upsert` transaction) -/

/-- A user document as read by the referral variant: balance, lifetime
message count, and the optional referral edge `referrerId`. -/
structure UserDoc where
  balance : Option ℚ
  whatsappMessageCount : Option Nat
  referrerId : Option String
deriving DecidableEq, Repr

/-- The slice of Firestore touched by the referral variant's
transaction: the `users` collection, the
`app_stats/whatsapp.totalMessages` counter, and the
`referrals` collection keyed by `(refereeId, referrerId)` with its
`totalCommissionEarned` field. -/
structure Part000Store where
  users : String → Option UserDoc
  statsTotalMessages : Option Nat
  referrals : String → String → Option ℚ

/-- The `db.runTransaction` body of the referral variant (part_000
lines 77-118), as a function from the store to either the committed
store (`some`) or a rolled-back transaction (`none`).  A missing user
document commits without writes.  Otherwise, in one transaction: the
user's balance is incremented by the reward and the lifetime count by
1, the global counter by 1, and — when `userData.referrerId` is truthy
— the referrer's balance is incremented by `reward × 10%` and, when a
matching referral document exists, its `totalCommissionEarned` too.
`transaction.update` on a nonexistent referrer document makes the
whole transaction fail, rolling back every buffered write. -/
def part000RewardTransaction (s : Part000Store) (userId : String) :
    Option Part000Store :=
  match s.users userId with
  | none => some s
  | some u =>
    let commissionAmount := rewardAmount * commissionRate
    let u' : UserDoc :=
      { u with balance := fieldIncrementQ u.balance rewardAmount,
               whatsappMessageCount :=
                 fieldIncrementN u.whatsappMessageCount 1 }
    let users1 := fun id => if id = userId then some u' else s.users id
    let stats1 := fieldIncrementN s.statsTotalMessages 1
    let rid := u.referrerId.getD ""
    if rid = "" then
      some { s with users := users1, statsTotalMessages := stats1 }
    else
      match users1 rid with
      | none => none
      | some r =>
        let r' : UserDoc :=
          { r with balance := fieldIncrementQ r.balance commissionAmount }
        let users2 := fun id => if id = rid then some r' else users1 id
        let referrals1 := fun a b =>
          if a = userId && b = rid then
            (s.referrals a b).map (fun t => t + commissionAmount)
          else s.referrals a b
        some { users := users2, statsTotalMessages := stats1,
               referrals := referrals1 }

/-- Wrapper for `db.runTransaction`: a failed transaction leaves the store exactly
as it was. -/
def part000Run (s : Part000Store) (userId : String) : Part000Store :=
  (part000RewardTransaction s userId).getD s

/-- C4: for a qualifying event on a user that has a referral edge, the
referrer's balance is credited by exactly 10% of the per-message reward
inside the same atomic transaction that credits the user's balance by
the reward; and when the transaction cannot complete (the referrer
document is missing, so its update throws), the whole store — primary
credit included — is rolled back, so no referral credit ever happens
without the primary credit and vice versa. -/
theorem c4_referral_commission_atomic (s : Part000Store)
    (uid rid : String) (u : UserDoc)
    (hu : s.users uid = some u) (hrid : u.referrerId.getD "" = rid)
    (hne : rid ≠ "") (huid : uid ≠ rid) :
    (∀ r, s.users rid = some r →
      ((part000Run s uid).users uid).map (fun d => d.balance.getD 0)
        = some (u.balance.getD 0 + rewardAmount)
      ∧ ((part000Run s uid).users rid).map (fun d => d.balance.getD 0)
        = some (r.balance.getD 0 + rewardAmount * commissionRate))
    ∧ (s.users rid = none → part000Run s uid = s) := by
  have hne' : rid ≠ uid := Ne.symm huid
  constructor
  · intro r hr
    simp only [part000Run, part000RewardTransaction, hu, hrid,
      if_neg hne, if_neg hne', hr, if_pos rfl, Option.getD_some,
      Option.map_some, fieldIncrementQ]
    simp [if_neg huid]
  · intro hr
    simp only [part000Run, part000RewardTransaction, hu, hrid,
      if_neg hne, if_neg hne', hr, Option.getD_none]

/-- A concrete two-user store: `alice` is referred by `bob`, and the
referral document for the pair exists. -/
def c4Store : Part000Store :=
  { users := fun id =>
      if id = "alice" then
        some { balance := some 2, whatsappMessageCount := some 3,
               referrerId := some "bob" }
      else if id = "bob" then
        some { balance := some 5, whatsappMessageCount := some 0,
               referrerId := none }
      else none,
    statsTotalMessages := some 10,
    referrals := fun a b =>
      if a = "alice" && b = "bob" then some 1 else none }

/-- Witness for `c4_referral_commission_atomic` on `c4Store`: one
event on `alice` credits `alice` by the reward and `bob` by 10% of it
in the committed store. -/
theorem c4_referral_commission_atomic_witness :
    ((part000Run c4Store "alice").users "alice").map
        (fun d => d.balance.getD 0) = some (2 + rewardAmount)
    ∧ ((part000Run c4Store "alice").users "bob").map
        (fun d => d.balance.getD 0) =
      some (5 + rewardAmount * commissionRate) := by
  have h := (c4_referral_commission_atomic c4Store "alice" "bob"
    { balance := some 2, whatsappMessageCount := some 3,
      referrerId := some "bob" }
    rfl rfl (by decide) (by decide)).1
    { balance := some 5, whatsappMessageCount := some 0,
      referrerId := none } rfl
  exact ⟨h.1, h.2⟩
